import Mathlib

/-!
# Verification of the perf command-model and sample-reconstruction core

This file is a shallow embedding, in Lean 4, of the core logic of
`bin/android_ndk_perf.py` from the `google/fplutil` repository:

* the perf argument classification machinery (`PerfArgsCommand`,
  `PerfArgs` and its methods), and
* the `perf script -D` dump parser (`process_perf_script_dump`),
  including the regular expressions it uses to recognize sample header,
  report and stack lines.

Python-specific conventions are translated as follows: in-place mutation
of `self` becomes state-passing over a `PerfArgs` structure; exceptions
(`PerfArgs.Error`, `IndexError`, `ValueError`) become `Except String`;
Python floats (only used for perf timestamps of the shape `[0-9]+.[0-9]+`,
on which float arithmetic questions in this development are exact) are
modelled as rationals; the three `re` patterns are embedded as data for a
small backtracking matcher (`RE` / `matchRE`) implementing Python `re`
semantics for the constructs those patterns use (literals, character
classes, greedy `*` and `+` over single-character classes, named groups,
and `$`).
-/

namespace FplPerf

/-! ## Command model: `PerfArgsCommand` -/

/-- Translation of class `PerfArgsCommand` (android_ndk_perf.py:748-801).
`sub_commands` keeps the list the Python constructor receives; the
`dict` the constructor builds from it is modelled by name lookup
(`lookupCommand`).  Field order: `name`, `sub_commands`, `value_options`,
`verbose`, `remote`, `real_command`, `output_filename`, `input_filename`. -/
inductive PerfArgsCommand : Type where
  | mk (name : String) (sub_commands : List PerfArgsCommand)
      (value_options : List String) (verbose : Bool) (remote : Bool)
      (real_command : Bool) (output_filename : String)
      (input_filename : String)

/-- Accessor for the `name` attribute. -/
def PerfArgsCommand.name : PerfArgsCommand → String
  | .mk n _ _ _ _ _ _ _ => n

/-- Accessor for the `sub_commands` attribute (as the constructor list). -/
def PerfArgsCommand.sub_commands : PerfArgsCommand → List PerfArgsCommand
  | .mk _ s _ _ _ _ _ _ => s

/-- Accessor for the `value_options` attribute. -/
def PerfArgsCommand.value_options : PerfArgsCommand → List String
  | .mk _ _ v _ _ _ _ _ => v

/-- Accessor for the `verbose` attribute. -/
def PerfArgsCommand.verbose : PerfArgsCommand → Bool
  | .mk _ _ _ v _ _ _ _ => v

/-- Accessor for the `remote` attribute. -/
def PerfArgsCommand.remote : PerfArgsCommand → Bool
  | .mk _ _ _ _ r _ _ _ => r

/-- Accessor for the `real_command` attribute. -/
def PerfArgsCommand.real_command : PerfArgsCommand → Bool
  | .mk _ _ _ _ _ r _ _ => r

/-- Accessor for the `output_filename` attribute. -/
def PerfArgsCommand.output_filename : PerfArgsCommand → String
  | .mk _ _ _ _ _ _ o _ => o

/-- Accessor for the `input_filename` attribute. -/
def PerfArgsCommand.input_filename : PerfArgsCommand → String
  | .mk _ _ _ _ _ _ _ i => i

/-- `dict([(cmd.name, cmd) for cmd in cmds]).get(key)`: the command names
in each table are distinct, so dictionary lookup is lookup of the first
command with the given name. -/
def lookupCommand (cmds : List PerfArgsCommand) (key : String) :
    Option PerfArgsCommand :=
  cmds.find? (fun c => c.name == key)

/-- The `record` entry of `PerfArgs.SUPPORTED_COMMANDS`
(android_ndk_perf.py:853-854): `verbose=True, remote=True,
output_filename='perf.data'`. -/
def recordCommand : PerfArgsCommand :=
  .mk "record" [] [] true true true "perf.data" ""

/-- The `top` entry of `PerfArgs.SUPPORTED_COMMANDS`
(android_ndk_perf.py:881): `verbose=True`. -/
def topCommand : PerfArgsCommand :=
  .mk "top" [] [] true false true "" ""

/-- The `help` entry of `PerfArgs.SUPPORTED_COMMANDS`
(android_ndk_perf.py:836): all defaults. -/
def helpCommand : PerfArgsCommand :=
  .mk "help" [] [] false false true "" ""

/-- Translation of `PerfArgs.SUPPORTED_COMMANDS`
(android_ndk_perf.py:825-884).  Python keyword defaults are spelled out:
`sub_commands=[]`, `value_options=[]`, `verbose=False`, `remote=False`,
`real_command=True`, `output_filename=''`, `input_filename=''`. -/
def SUPPORTED_COMMANDS : List PerfArgsCommand :=
  [ .mk "annotate" [] [] true false true "" "perf.data",
    .mk "archive" [] [] false true true "" "",
    .mk "bench" [] [] false true true "" "",
    .mk "buildid-cache" [] [] true false true "" "",
    .mk "buildid-list" [] [] true false true "" "perf.data",
    .mk "diff" [] [] true false true "" "",
    .mk "evlist" [] [] false false true "" "perf.data",
    helpCommand,
    .mk "inject" [] [] true false true "" "",
    .mk "kmem"
      [.mk "record" [] [] false false true "" "",
       .mk "stat" [] [] false true true "" ""]
      ["-i", "--input", "-s", "--sort", "-l", "--line"]
      false false true "" "perf.data",
    .mk "list" [] [] false true true "" "",
    .mk "lock"
      [.mk "record" [] [] false true true "perf.data" "",
       .mk "trace" [] [] false false true "" "perf.data",
       .mk "report" [] [] false false true "" "perf.data"]
      ["-i", "--input"] true false true "" "",
    .mk "probe" [] [] true true true "" "",
    recordCommand,
    .mk "report" [] [] true false true "" "perf.data",
    .mk "sched"
      [.mk "record" [] [] false true true "" "",
       .mk "latency" [] [] false false true "" "",
       .mk "map" [] [] false false true "" "",
       .mk "replay" [] [] false false true "" "",
       .mk "trace" [] [] false false true "" ""]
      ["-i", "--input"] true false true "" "perf.data",
    .mk "script"
      [.mk "record" [] [] false true true "" "",
       .mk "report" [] [] false false true "" ""]
      ["-s", "--script", "-g", "--gen-script", "-i", "--input",
       "-k", "--vmlinux", "--kallsyms", "--symfs"]
      true false true "" "perf.data",
    .mk "stat" [] [] false false true "perf.data" "",
    .mk "test" [] [] false false true "" "",
    .mk "timechart"
      [.mk "record" [] [] false false true "" ""]
      ["-i", "--input", "-o", "--output", "-w", "--width",
       "-p", "--process", "--symfs"]
      false false true "output.svg" "perf.data",
    topCommand,
    .mk "visualize" [] [] false false false "" "perf.data" ]

/-! ## `PerfArgs`: parsed invocation state -/

/-- The mutable state of a `PerfArgs` instance (android_ndk_perf.py:804-908):
`initial_args` (the argument list captured at construction), `args` (the
working copy mutated by the methods), the resolved `command` and the
optional resolved `sub_command`. -/
structure PerfArgs where
  initial_args : List String
  args : List String
  command : PerfArgsCommand
  sub_command : Option PerfArgsCommand

/-- The `while` loop of `PerfArgs.man_to_builtin_help`
(android_ndk_perf.py:980-993): each `help X` pair becomes `X -h`
(consuming both tokens), a `--help` that is the final token becomes
`-h`, every other token is copied. -/
def man_to_builtin_help_loop : List String → List String
  | [] => []
  | [arg] => if arg = "--help" then ["-h"] else [arg]
  | arg :: next :: rest =>
    if arg = "help" then next :: "-h" :: man_to_builtin_help_loop rest
    else arg :: man_to_builtin_help_loop (next :: rest)

/-- Translation of `PerfArgs.man_to_builtin_help`
(android_ndk_perf.py:972-997) as a pure function on the working argument
list (the method reads and writes only `self.args`).  After the rewrite
loop, a leading `-h`/`--help` collapses the whole list to `['help']`. -/
def man_to_builtin_help (args : List String) : List String :=
  let out_args := man_to_builtin_help_loop args
  if ["-h", "--help"].contains (out_args.headD "") then ["help"]
  else out_args

/-- The `while` loop of `PerfArgs.get_sub_command`
(android_ndk_perf.py:920-926), recast over the suffix of the argument
list that remains to scan: option tokens (prefix `-`) are skipped, a
token in `value_options` also skips the following value token; the scan
stops at the first non-option token or at the end of the list, and
`arg` carries the last token examined (returned when the scan runs off
the end, matching the loop variable `arg` on exit). -/
def get_sub_command_scan (value_options : List String) :
    List String → String → String
  | [], arg => arg
  | a :: rest, _ =>
    if ¬ a.startsWith "-" then a
    else if value_options.contains a then
      match rest with
      | [] => a
      | _ :: rest2 => get_sub_command_scan value_options rest2 a
    else get_sub_command_scan value_options rest a

/-- Translation of `PerfArgs.get_sub_command` (android_ndk_perf.py:910-928),
as a function of the resolved command and the working argument list; the
scan starts at `args[1]`. -/
def get_sub_command (command : PerfArgsCommand) (args : List String) :
    Option PerfArgsCommand :=
  if args.length > 2 then
    lookupCommand command.sub_commands
      (get_sub_command_scan command.value_options (args.drop 1)
        (args.getD 1 ""))
  else none

/-- Translation of `PerfArgs.__init__` (android_ndk_perf.py:889-908).
`PerfArgs.Error('Unsupported perf command %s' % command_arg)` becomes
`Except.error` carrying the formatted message. -/
def PerfArgs.init (args : List String) (verbose : Bool) :
    Except String PerfArgs :=
  let self_args := man_to_builtin_help args
  let command_arg := self_args.headD "help"
  match lookupCommand SUPPORTED_COMMANDS command_arg with
  | none => .error ("Unsupported perf command " ++ command_arg)
  | some command =>
    let self_args :=
      if command.verbose && verbose then self_args ++ ["--verbose"]
      else self_args
    .ok ⟨args, self_args, command, get_sub_command command self_args⟩

/-- Translation of `PerfArgs.requires_root` (android_ndk_perf.py:930-939). -/
def PerfArgs.requires_root (self : PerfArgs) : Bool :=
  if self.command.name == "top" &&
      ((self.args.drop 1).filter
        (fun arg => ["-p", "-t", "-u"].contains arg)).isEmpty then
    true
  else false

/-- Translation of `PerfArgs.requires_remote` (android_ndk_perf.py:941-948). -/
def PerfArgs.requires_remote (self : PerfArgs) : Bool :=
  self.command.remote ||
    (match self.sub_command with
     | some sc => sc.remote
     | none => false)

/-- Translation of `PerfArgs.insert_process_option`
(android_ndk_perf.py:950-962). -/
def PerfArgs.insert_process_option (self : PerfArgs) (pid : Nat) : PerfArgs :=
  if ["record", "stat", "top"].contains self.command.name ||
      (self.command.name == "script" &&
       (match self.sub_command with
        | some sc => sc.name == "record"
        | none => false)) then
    { self with args := self.args ++ ["-p", toString pid] }
  else self

/-- Translation of `PerfArgs.insert_symfs_dir` (android_ndk_perf.py:999-1012). -/
def PerfArgs.insert_symfs_dir (self : PerfArgs) (symbols_dir : String) :
    PerfArgs :=
  if symbols_dir = "" ∨
      ¬ ["annotate", "diff", "report", "script", "timechart",
         "visualize"].contains self.command.name then
    self
  else if self.args.contains "--symfs" then self
  else { self with args := self.args ++ ["--symfs", symbols_dir] }

/-- The `for` loop of `PerfArgs.parse_value_option`
(android_ndk_perf.py:1025-1030): the first token that is in `options`
and is not the final token yields the index of the following token;
otherwise the result is `-1`. -/
def parse_value_option_go (options : List String) (i : Nat) :
    List String → Int
  | [] => -1
  | arg :: rest =>
    if options.contains arg && !rest.isEmpty then (i + 1 : Nat)
    else parse_value_option_go options (i + 1) rest

/-- Translation of `PerfArgs.parse_value_option`
(android_ndk_perf.py:1014-1030). -/
def PerfArgs.parse_value_option (self : PerfArgs) (options : List String) :
    Int :=
  parse_value_option_go options 0 self.args

/-- Translation of `PerfArgs.get_default_output_filename`
(android_ndk_perf.py:1032-1042): the first of `command`, `sub_command`
with a non-empty `output_filename` provides the result. -/
def PerfArgs.get_default_output_filename (self : PerfArgs) : String :=
  if self.command.output_filename ≠ "" then self.command.output_filename
  else
    match self.sub_command with
    | some sc => if sc.output_filename ≠ "" then sc.output_filename else ""
    | none => ""

/-- Translation of `PerfArgs.get_output_filename`
(android_ndk_perf.py:1044-1065).  The returned pair is (return value,
state of `self` after the in-place updates of `self.args`). -/
def PerfArgs.get_output_filename (self : PerfArgs)
    (remote_output_filename : String) : String × PerfArgs :=
  let output_filename := self.get_default_output_filename
  if output_filename = "" then ("", self)
  else
    let index := self.parse_value_option ["-o"]
    if index ≥ 0 then
      let output_filename := self.args.getD index.toNat ""
      if remote_output_filename ≠ "" then
        (output_filename,
         { self with args := self.args.set index.toNat remote_output_filename })
      else (output_filename, self)
    else if remote_output_filename ≠ "" then
      (output_filename,
       { self with args := self.args ++ ["-o", remote_output_filename] })
    else (output_filename, self)

/-- Translation of `PerfArgs.get_default_input_filename`
(android_ndk_perf.py:1067-1077). -/
def PerfArgs.get_default_input_filename (self : PerfArgs) : String :=
  if self.command.input_filename ≠ "" then self.command.input_filename
  else
    match self.sub_command with
    | some sc => if sc.input_filename ≠ "" then sc.input_filename else ""
    | none => ""

/-- Translation of `PerfArgs.get_input_filename`
(android_ndk_perf.py:1079-1088). -/
def PerfArgs.get_input_filename (self : PerfArgs) : String :=
  let index := self.parse_value_option ["-i"]
  if index ≥ 0 then self.args.getD index.toNat ""
  else self.get_default_input_filename

/-- Translation of `PerfArgs.process_remote_args`
(android_ndk_perf.py:1090-1112).  The returned pair is (return value,
state of `self` after the in-place updates of `self.args`). -/
def PerfArgs.process_remote_args (self : PerfArgs)
    (remote_output_filename : String) (call_graph_recording : Bool)
    (timestamp_recording : Bool) : String × PerfArgs :=
  if ¬ ["record", "top", "stat"].contains self.command.name then ("", self)
  else
    let self :=
      if self.command.name == "record" then
        { self with args := self.args ++ ["-m", "4"] }
      else self
    let self :=
      if call_graph_recording then { self with args := self.args ++ ["-g"] }
      else self
    let self :=
      if timestamp_recording then { self with args := self.args ++ ["-T"] }
      else self
    self.get_output_filename remote_output_filename

/-! ## A backtracking matcher for the three `re` patterns

The dump parser uses three compiled patterns
(`PERF_DUMP_EVENT_SAMPLE_RE`, `PERF_DUMP_EVENT_SAMPLE_REPORT_RE`,
`PERF_REPORT_STACK_RE`, android_ndk_perf.py:173-194).  Every quantifier
in those patterns applies to a single-character class, so Python's
greedy-with-backtracking semantics is captured exactly by a matcher that
tries the longest class run first and shortens it on failure of the
continuation.  `re.match` anchors at the start of the line and allows
trailing unmatched input unless the pattern ends in `$`. -/

/-- Pattern syntax: literal character, single character of a class,
greedy `class*`, greedy `class+`, sequencing, named capturing group and
the `$` anchor (`eps` matches the empty string and is the unit of
sequencing). -/
inductive RE : Type where
  | eps : RE
  | lit : Char → RE
  | cls : (Char → Bool) → RE
  | star : (Char → Bool) → RE
  | plus : (Char → Bool) → RE
  | seq : RE → RE → RE
  | group : String → RE → RE
  | eol : RE

/-- Length of the maximal prefix run of characters satisfying `p`. -/
def takeRun (p : Char → Bool) : List Char → Nat
  | [] => 0
  | c :: rest => if p c then takeRun p rest + 1 else 0

/-- Try `k n`, `k (n-1)`, ..., `k 0`, returning the first success:
greedy choice of a `class*` run length. -/
def tryFromStar (k : Nat → Option (List (String × String))) :
    Nat → Option (List (String × String))
  | 0 => k 0
  | n + 1 =>
    match k (n + 1) with
    | some r => some r
    | none => tryFromStar k n

/-- Try `k n`, `k (n-1)`, ..., `k 1`, returning the first success:
greedy choice of a `class+` run length (at least one character). -/
def tryFromPlus (k : Nat → Option (List (String × String))) :
    Nat → Option (List (String × String))
  | 0 => none
  | n + 1 =>
    match k (n + 1) with
    | some r => some r
    | none => tryFromPlus k n

/-- The backtracking matcher.  `caps` accumulates the named captures of
the path being explored; `k` is the continuation receiving the remaining
input and captures. -/
def matchRE (r : RE) (s : List Char) (caps : List (String × String))
    (k : List Char → List (String × String) →
      Option (List (String × String))) :
    Option (List (String × String)) :=
  match r with
  | .eps => k s caps
  | .lit c =>
    match s with
    | [] => none
    | c' :: rest => if c' = c then k rest caps else none
  | .cls p =>
    match s with
    | [] => none
    | c :: rest => if p c then k rest caps else none
  | .star p => tryFromStar (fun n => k (s.drop n) caps) (takeRun p s)
  | .plus p => tryFromPlus (fun n => k (s.drop n) caps) (takeRun p s)
  | .seq a b => matchRE a s caps (fun s' caps' => matchRE b s' caps' k)
  | .group name r' =>
    matchRE r' s caps (fun s' caps' =>
      k s' (caps' ++
        [(name, String.mk (s.take (s.length - s'.length)))]))
  | .eol => if s.isEmpty then k s caps else none

/-- `re_pattern.match(line)`, returning the `groupdict()` on success.
A match is anchored at the start of the line and may leave trailing
input unconsumed. -/
def reMatch (r : RE) (line : String) : Option (List (String × String)) :=
  matchRE r line.toList [] (fun _ caps => some caps)

/-- Sequence a list of patterns. -/
def reSeq (l : List RE) : RE := l.foldr .seq .eps

/-- A sequence of literal characters. -/
def reLit (str : String) : RE := reSeq (str.toList.map .lit)

/-- Python (2) `\d` for `str` patterns: ASCII digits. -/
def isDigitChar (c : Char) : Bool := '0' ≤ c && c ≤ '9'

/-- Python (2) `\s` for `str` patterns:
space, `\t`, `\n`, `\r`, `\x0b`, `\x0c`. -/
def isSpaceChar (c : Char) : Bool :=
  c = ' ' || c = '\t' || c = '\n' || c = '\r' ||
  c = Char.ofNat 11 || c = Char.ofNat 12

/-- `[0-9a-fA-F]`. -/
def isHexChar (c : Char) : Bool :=
  isDigitChar c || ('a' ≤ c && c ≤ 'f') || ('A' ≤ c && c ≤ 'F')

/-- `[0-9a-zA-Z]`. -/
def isAlnumChar (c : Char) : Bool :=
  isDigitChar c || ('a' ≤ c && c ≤ 'z') || ('A' ≤ c && c ≤ 'Z')

/-- `.`: any character except a newline. -/
def isDotChar (c : Char) : Bool := c ≠ '\n'

/-- `PERF_DUMP_EVENT_SAMPLE_RE` (android_ndk_perf.py:173-182):
`^(?P<unknown>\d+)\s+(?P<file_offset>0x[0-9a-fA-F]+)\s+`
`\[(?P<event_header_size>[^\]]+)\]:\s+(?P<perf_event_type>PERF_RECORD_[^(]+)`
`(?P<perf_event_misc>\([^\)]+\)):\s+(?P<pid>\d+)/(?P<tid>\d+):\s+`
`(?P<ip>0x[0-9a-fA-F]+)\s+period:\s+(?P<period>\d+)`. -/
def PERF_DUMP_EVENT_SAMPLE_RE : RE :=
  reSeq
    [ .group "unknown" (.plus isDigitChar),
      .plus isSpaceChar,
      .group "file_offset" (reSeq [.lit '0', .lit 'x', .plus isHexChar]),
      .plus isSpaceChar,
      .lit '[',
      .group "event_header_size" (.plus (fun c => c ≠ ']')),
      .lit ']', .lit ':',
      .plus isSpaceChar,
      .group "perf_event_type"
        (reSeq [reLit "PERF_RECORD_", .plus (fun c => c ≠ '(')]),
      .group "perf_event_misc"
        (reSeq [.lit '(', .plus (fun c => c ≠ ')'), .lit ')']),
      .lit ':',
      .plus isSpaceChar,
      .group "pid" (.plus isDigitChar),
      .lit '/',
      .group "tid" (.plus isDigitChar),
      .lit ':',
      .plus isSpaceChar,
      .group "ip" (reSeq [.lit '0', .lit 'x', .plus isHexChar]),
      .plus isSpaceChar,
      reLit "period:",
      .plus isSpaceChar,
      .group "period" (.plus isDigitChar) ]

/-- `PERF_DUMP_EVENT_SAMPLE_REPORT_RE` (android_ndk_perf.py:185-189):
`(?P<comm>.*)\s+(?P<tid>[0-9]+)\s+(?P<time>[0-9]+\.[0-9]+):\s+`
`(?P<event>.*):\s*$`. -/
def PERF_DUMP_EVENT_SAMPLE_REPORT_RE : RE :=
  reSeq
    [ .group "comm" (.star isDotChar),
      .plus isSpaceChar,
      .group "tid" (.plus isDigitChar),
      .plus isSpaceChar,
      .group "time"
        (reSeq [.plus isDigitChar, .lit '.', .plus isDigitChar]),
      .lit ':',
      .plus isSpaceChar,
      .group "event" (.star isDotChar),
      .lit ':',
      .star isSpaceChar,
      .eol ]

/-- `PERF_REPORT_STACK_RE` (android_ndk_perf.py:193-194):
`^\t\s+(?P<ip>[0-9a-zA-Z]+)\s+(?P<symbol>.*)\s+(?P<dso>\(.*\))$`. -/
def PERF_REPORT_STACK_RE : RE :=
  reSeq
    [ .lit '\t',
      .plus isSpaceChar,
      .group "ip" (.plus isAlnumChar),
      .plus isSpaceChar,
      .group "symbol" (.star isDotChar),
      .plus isSpaceChar,
      .group "dso" (reSeq [.lit '(', .star isDotChar, .lit ')']),
      .eol ]

/-! ## Number conversions

The dump parser converts captured strings with `int(s)`, `int(s, 16)`
and `float(s)`.  On the strings these are applied to (regex captures),
the conversions below agree with Python; invalid input (possible for the
base-16 conversion of a stack-line `ip`, captured as `[0-9a-zA-Z]+`)
raises `ValueError`, modelled as `Except.error`. -/

/-- Numeric value of a decimal digit string. -/
def decValue (cs : List Char) : Nat :=
  cs.foldl (fun a c => a * 10 + (c.toNat - 48)) 0

/-- Numeric value of one hexadecimal digit. -/
def hexDigitValue (c : Char) : Nat :=
  if isDigitChar c then c.toNat - 48
  else if 'a' ≤ c && c ≤ 'f' then c.toNat - 87
  else c.toNat - 55

/-- Numeric value of a hexadecimal digit string. -/
def hexValue (cs : List Char) : Nat :=
  cs.foldl (fun a c => a * 16 + hexDigitValue c) 0

/-- `int(s)` on a capture: succeeds on non-empty all-digit strings. -/
def pythonIntDec (s : String) : Except String Nat :=
  if s.toList ≠ [] ∧ s.toList.all isDigitChar then .ok (decValue s.toList)
  else .error ("ValueError: invalid literal for int(): " ++ s)

/-- `int(s, 16)` on a capture: an optional `0x`/`0X` prefix followed by a
non-empty run of hex digits. -/
def pythonIntHex (s : String) : Except String Nat :=
  let cs :=
    match s.toList with
    | '0' :: 'x' :: rest => rest
    | '0' :: 'X' :: rest => rest
    | cs => cs
  if cs ≠ [] ∧ cs.all isHexChar then .ok (hexValue cs)
  else .error ("ValueError: invalid literal for int() with base 16: " ++ s)

/-- `s.split('.')` on the character list. -/
def splitOnDot : List Char → List (List Char)
  | [] => [[]]
  | c :: rest =>
    if c = '.' then [] :: splitOnDot rest
    else
      match splitOnDot rest with
      | [] => [[c]]
      | part :: parts => (c :: part) :: parts

/-- `float(s)` on a `time` capture (always of the shape `[0-9]+.[0-9]+`),
as an exact rational. -/
def pythonFloat (s : String) : Except String ℚ :=
  match splitOnDot s.toList with
  | [a, b] =>
    if a ≠ [] ∧ a.all isDigitChar ∧ b ≠ [] ∧ b.all isDigitChar then
      .ok (mkRat (decValue a * 10 ^ b.length + decValue b) (10 ^ b.length))
    else .error ("ValueError: could not convert string to float: " ++ s)
  | _ => .error ("ValueError: could not convert string to float: " ++ s)

/-! ## Sample records -/

/-- Translation of class `PerfIp` (android_ndk_perf.py:1247-1266). -/
structure PerfIp where
  ip : Nat
  symbol : String
  dso : String
deriving DecidableEq, Repr

/-- Translation of class `PerfRecordSample` (android_ndk_perf.py:1269-1311).
`period` starts as the integer reported in the header line but is
overwritten with a timestamp delta by the period-correction pass, so it
is a rational like `time`. -/
structure PerfRecordSample where
  file_offset : Nat
  event_type : String
  pid : Nat
  tid : Nat
  ip : Nat
  period : ℚ
  command : String
  time : ℚ
  event : String
  stack : List PerfIp
deriving DecidableEq, Repr

instance : Inhabited PerfRecordSample :=
  ⟨⟨0, "", 0, 0, 0, 0, "", 0, "", []⟩⟩

/-- `groupdict()[key]` (every named group of the three patterns always
participates in a successful match, so the lookup always finds `key`). -/
def dictGet (d : List (String × String)) (key : String) : String :=
  ((d.find? (fun kv => kv.1 == key)).map (fun kv => kv.2)).getD ""

/-- `d.update(g)`: bindings of `g` override those of `d`. -/
def dictUpdate (d g : List (String × String)) : List (String × String) :=
  d.filter (fun kv => (g.find? (fun kv2 => kv2.1 == kv.1)).isNone) ++ g

/-- `s.strip()` is truthy iff `s` has a non-whitespace character. -/
def pythonStripNonempty (s : String) : Bool :=
  s.toList.any (fun c => !isSpaceChar c)

/-- Construction of a `PerfRecordSample` from the merged header/report
captures (android_ndk_perf.py:2108-2117), with the `int`/`float`
conversions in source order. -/
def mkSample (d : List (String × String)) : Except String PerfRecordSample := do
  let file_offset ← pythonIntHex ((dictGet d "file_offset").drop 2)
  let pid ← pythonIntDec (dictGet d "pid")
  let tid ← pythonIntDec (dictGet d "tid")
  let ip ← pythonIntHex ((dictGet d "ip").drop 2)
  let period ← pythonIntDec (dictGet d "period")
  let time ← pythonFloat (dictGet d "time")
  .ok
    { file_offset := file_offset,
      event_type := dictGet d "perf_event_type",
      pid := pid, tid := tid, ip := ip,
      period := (period : ℚ),
      command := dictGet d "comm",
      time := time,
      event := dictGet d "event",
      stack := [] }

/-! ## The dump scanning loop -/

/-- The loop state of `process_perf_script_dump`
(android_ndk_perf.py:2066-2068): the finished `samples`, the pending
header captures `sample_data` (`None` when no header is pending) and the
sample currently accumulating its stack (`None` when no report line has
completed a pending header). -/
structure ScanState where
  samples : List PerfRecordSample
  sample_data : Option (List (String × String))
  sample : Option PerfRecordSample
deriving Repr

/-- The synthetic stack entry appended to samples with no stack trace
(android_ndk_perf.py:2085). -/
def idleIp : PerfIp := ⟨0xffffffff, "[idle]", "([idle])"⟩

/-- One iteration of the line loop of `process_perf_script_dump`
(android_ndk_perf.py:2073-2123).  A blank line closes the pending sample
(synthesizing the `[idle]` frame when its stack is empty); while a
sample is open, lines are matched against the stack pattern; while a
header is pending, lines are matched against the report pattern; else
lines are matched against the header pattern.  Lines matching none of
the applicable patterns are skipped. -/
def scanLine (st : ScanState) (line : String) : Except String ScanState :=
  if line = "" then
    match st.sample with
    | some sample =>
      let sample :=
        if sample.stack.isEmpty then { sample with stack := [idleIp] }
        else sample
      .ok ⟨st.samples ++ [sample], none, none⟩
    | none => .ok st
  else
    match st.sample with
    | some sample =>
      match reMatch PERF_REPORT_STACK_RE line with
      | some groups => do
        let ip ← pythonIntHex (dictGet groups "ip")
        let symbol := dictGet groups "symbol"
        let dso := dictGet groups "dso"
        .ok { st with
              sample := some
                { sample with
                  stack := sample.stack ++
                    [⟨ip,
                      if pythonStripNonempty symbol then symbol
                      else "[unknown]",
                      if dso = "()" then "([unknown])" else dso⟩] } }
      | none => .ok st
    | none =>
      match st.sample_data with
      | some sample_data =>
        match reMatch PERF_DUMP_EVENT_SAMPLE_REPORT_RE line with
        | some groups => do
          let sample ← mkSample (dictUpdate sample_data groups)
          .ok { st with sample := some sample }
        | none => .ok st
      | none =>
        match reMatch PERF_DUMP_EVENT_SAMPLE_RE line with
        | some groups => .ok { st with sample_data := some groups }
        | none => .ok st

/-- The period-correction pass of `process_perf_script_dump`
(android_ndk_perf.py:2125-2135).  When there are samples and the sum of
their periods equals their number, each period is replaced by the delta
to the next sample's timestamp, the last sample repeating the previous
delta; `delta_times[-1]` on the empty delta list (exactly one sample)
raises `IndexError`. -/
def correctPeriods (samples : List PerfRecordSample) :
    Except String (List PerfRecordSample) :=
  if samples ≠ [] ∧ (samples.map (fun s => s.period)).sum =
      (samples.length : ℚ) then
    let delta_times :=
      (samples.zip samples.tail).map (fun p => p.2.time - p.1.time)
    match delta_times.getLast? with
    | none => .error "IndexError: list index out of range"
    | some last =>
      .ok (List.zipWith (fun sample delta => { sample with period := delta })
        samples (delta_times ++ [last]))
  else .ok samples

/-- Translation of `process_perf_script_dump`
(android_ndk_perf.py:2053-2136), taking the dump already split into
lines (the source applies `splitlines()` to its string argument; the
progress display it drives is I/O-cosmetic and not modelled). -/
def process_perf_script_dump (lines : List String) :
    Except String (List PerfRecordSample) := do
  let st ← lines.foldlM scanLine ⟨[], none, none⟩
  correctPeriods st.samples

/-! ## Theorems about the claims -/

-- `Rat.add` and friends are `@[irreducible]` in Batteries; concrete dumps
-- are evaluated definitionally below, which needs them unfolded.
attribute [local semireducible] Rat.add Rat.sub Rat.mul Rat.inv

/-- C1: for a dump reconstructing exactly one sample whose reported
period is 1, `process_perf_script_dump` does not leave the sample
unchanged: the period-correction pass evaluates `delta_times[-1]` on an
empty list and raises `IndexError` (the claim's no-error guarantee holds
for a single sample only when its period differs from 1, as the second
conjunct shows for a reported period of 5). -/
theorem C1_single_sample_period_one_raises_index_error :
    process_perf_script_dump
      ["1 0x100 [0x28]: PERF_RECORD_SAMPLE(IP, 0x2): 100/200: 0xabc period: 1",
       "foo 200 1.0: cycles:",
       "\t       abc somefunc (/lib.so)",
       ""] = .error "IndexError: list index out of range" ∧
    process_perf_script_dump
      ["1 0x100 [0x28]: PERF_RECORD_SAMPLE(IP, 0x2): 100/200: 0xabc period: 5",
       "foo 200 1.0: cycles:",
       "\t       abc somefunc (/lib.so)",
       ""] =
      .ok [⟨0x100, "PERF_RECORD_SAMPLE", 100, 200, 0xabc, 5, "foo", 1,
            "cycles", [⟨0xabc, "somefunc", "(/lib.so)"⟩]⟩] :=
  ⟨by rfl, by rfl⟩

/-- C2 counterexample: a dump whose two samples report periods 0 and 2
(so a sample has period ≠ 1, and the claim promises the periods are
returned exactly as reported) still has both periods overwritten with
the timestamp delta 1/2, because the code's guard is
`sum(periods) == len(samples)`, not `all periods == 1`. -/
theorem C2_counterexample_periods_zero_two_rewritten :
    (["1 0x100 [0x28]: PERF_RECORD_SAMPLE(IP, 0x2): 100/200: 0xa period: 0",
      "foo 200 1.0: cycles:",
      "",
      "2 0x200 [0x28]: PERF_RECORD_SAMPLE(IP, 0x2): 100/200: 0xb period: 2",
      "foo 200 1.5: cycles:",
      ""].foldlM scanLine ⟨[], none, none⟩).map
        (fun st => st.samples.map (fun s => s.period)) = .ok [0, 2] ∧
    process_perf_script_dump
      ["1 0x100 [0x28]: PERF_RECORD_SAMPLE(IP, 0x2): 100/200: 0xa period: 0",
       "foo 200 1.0: cycles:",
       "",
       "2 0x200 [0x28]: PERF_RECORD_SAMPLE(IP, 0x2): 100/200: 0xb period: 2",
       "foo 200 1.5: cycles:",
       ""] =
      .ok [⟨0x100, "PERF_RECORD_SAMPLE", 100, 200, 0xa, 1/2, "foo", 1,
            "cycles", [idleIp]⟩,
           ⟨0x200, "PERF_RECORD_SAMPLE", 100, 200, 0xb, 1/2, "foo", 3/2,
            "cycles", [idleIp]⟩] :=
  ⟨by rfl, by rfl⟩

/-- C3 counterexample: two header lines followed by a report line and a
blank line.  The second line is itself a header-pattern match, yet the
run emits one sample built from the FIRST header's fields
(`file_offset = 0x100`, `pid = 111`, `period = 7`): the pending header
fields are not discarded, and no fresh header match overwrites them. -/
theorem C3_counterexample_first_header_retained :
    (reMatch PERF_DUMP_EVENT_SAMPLE_RE
      "2 0x200 [0x28]: PERF_RECORD_SAMPLE(IP, 0x2): 222/200: 0xb period: 9").isSome
      = true ∧
    process_perf_script_dump
      ["1 0x100 [0x28]: PERF_RECORD_SAMPLE(IP, 0x2): 111/200: 0xa period: 7",
       "2 0x200 [0x28]: PERF_RECORD_SAMPLE(IP, 0x2): 222/200: 0xb period: 9",
       "foo 200 1.0: cycles:",
       ""] =
      .ok [⟨0x100, "PERF_RECORD_SAMPLE", 111, 200, 0xa, 7, "foo", 1,
            "cycles", [idleIp]⟩] :=
  ⟨by rfl, by rfl⟩

/-- C3 amended: while a header is pending (`sample_data` set, no sample
open), any non-blank line that does not match the report pattern —
in particular a second header-pattern line — leaves the scanner state
unchanged: the pending header fields are retained, the new header line
is the one silently dropped. -/
theorem C3_amended_pending_header_retained (st : ScanState)
    (d : List (String × String)) (line : String)
    (g : List (String × String))
    (hsample : st.sample = none) (hdata : st.sample_data = some d)
    (hheader : reMatch PERF_DUMP_EVENT_SAMPLE_RE line = some g)
    (hreport : reMatch PERF_DUMP_EVENT_SAMPLE_REPORT_RE line = none) :
    scanLine st line = .ok st := by
  have hline : line ≠ "" := by
    intro h
    have hnone : reMatch PERF_DUMP_EVENT_SAMPLE_RE "" = none := by rfl
    rw [h, hnone] at hheader
    cases hheader
  unfold scanLine
  rw [if_neg hline, hsample, hdata, hreport]

/-- C3 amended, witness: the second header line of the counterexample
run, arriving while the first header is pending, leaves the state
unchanged. -/
theorem C3_amended_pending_header_retained_witness :
    scanLine
      ⟨[], some [("unknown", "1")], none⟩
      "2 0x200 [0x28]: PERF_RECORD_SAMPLE(IP, 0x2): 222/200: 0xb period: 9" =
      .ok ⟨[], some [("unknown", "1")], none⟩ :=
  C3_amended_pending_header_retained _ _ _
    [("unknown", "2"), ("file_offset", "0x200"),
     ("event_header_size", "0x28"),
     ("perf_event_type", "PERF_RECORD_SAMPLE"),
     ("perf_event_misc", "(IP, 0x2)"), ("pid", "222"), ("tid", "200"),
     ("ip", "0xb"), ("period", "9")]
    rfl rfl (by rfl) (by rfl)

/-- C8: a sample block whose header and report lines matched but that
accumulated zero stack frames is emitted, at its terminating blank line,
with a one-element stack holding the synthetic frame
`{ip: 0xffffffff, symbol: "[idle]", dso: "([idle])"}` — stated for every
scanner state holding an open sample with an empty stack, and
illustrated end-to-end on a header/report/blank block. -/
theorem C8_idle_frame_synthesized :
    (∀ (st : ScanState) (s : PerfRecordSample),
      st.sample = some s → s.stack = [] →
      scanLine st "" =
        .ok ⟨st.samples ++ [{ s with stack := [idleIp] }], none, none⟩) ∧
    process_perf_script_dump
      ["1 0x100 [0x28]: PERF_RECORD_SAMPLE(IP, 0x2): 100/200: 0xabc period: 5",
       "foo 200 1.0: cycles:",
       ""] =
      .ok [⟨0x100, "PERF_RECORD_SAMPLE", 100, 200, 0xabc, 5, "foo", 1,
            "cycles", [idleIp]⟩] := by
  constructor
  · intro st s hsample hstack
    simp [scanLine, hsample, hstack]
  · rfl

/-- C8 witness: the step property applied to a concrete open sample with
an empty stack. -/
theorem C8_idle_frame_synthesized_witness :
    scanLine
      ⟨[], none,
       some ⟨0x100, "PERF_RECORD_SAMPLE", 100, 200, 0xabc, 5, "foo", 1,
             "cycles", []⟩⟩ "" =
      .ok ⟨[⟨0x100, "PERF_RECORD_SAMPLE", 100, 200, 0xabc, 5, "foo", 1,
             "cycles", [idleIp]⟩], none, none⟩ :=
  C8_idle_frame_synthesized.1
    ⟨[], none,
     some ⟨0x100, "PERF_RECORD_SAMPLE", 100, 200, 0xabc, 5, "foo", 1,
           "cycles", []⟩⟩
    ⟨0x100, "PERF_RECORD_SAMPLE", 100, 200, 0xabc, 5, "foo", 1,
     "cycles", []⟩ rfl rfl

/-- C6: `requires_root` is true exactly for the `top` command with none
of `-p`, `-t`, `-u` among the arguments after the command token
(`args[1:]`). -/
theorem C6_requires_root_iff (p : PerfArgs) :
    p.requires_root = true ↔
      (p.command.name = "top" ∧
        ∀ arg ∈ p.args.drop 1, arg ∉ (["-p", "-t", "-u"] : List String)) := by
  unfold PerfArgs.requires_root
  split
  · rename_i hcond
    rw [Bool.and_eq_true, beq_iff_eq, List.isEmpty_iff,
      List.filter_eq_nil_iff] at hcond
    constructor
    · intro _
      exact ⟨hcond.1, fun a ha => by simpa using hcond.2 a ha⟩
    · intro _
      rfl
  · rename_i hcond
    constructor
    · intro h
      cases h
    · rintro ⟨h1, h2⟩
      exfalso
      apply hcond
      rw [Bool.and_eq_true, beq_iff_eq, List.isEmpty_iff,
        List.filter_eq_nil_iff]
      exact ⟨h1, fun a ha => by simpa using h2 a ha⟩

/-- C6 witness: `classify(["top"])` requires root, while
`classify(["top", "-p", "123"])` does not. -/
theorem C6_requires_root_iff_witness :
    PerfArgs.requires_root ⟨["top"], ["top"], topCommand, none⟩ = true ∧
    PerfArgs.requires_root
      ⟨["top", "-p", "123"], ["top", "-p", "123"], topCommand, none⟩ = false := by
  constructor
  · exact (C6_requires_root_iff _).mpr ⟨rfl, by decide⟩
  · have h := C6_requires_root_iff
      ⟨["top", "-p", "123"], ["top", "-p", "123"], topCommand, none⟩
    revert h
    decide

/-- Helper: `get_output_filename` only rewrites `args`; the other three
fields of the state are untouched. -/
lemma get_output_filename_frame (p : PerfArgs) (r : String) :
    (p.get_output_filename r).2.initial_args = p.initial_args ∧
    (p.get_output_filename r).2.command = p.command ∧
    (p.get_output_filename r).2.sub_command = p.sub_command := by
  unfold PerfArgs.get_output_filename
  dsimp only
  split
  · exact ⟨rfl, rfl, rfl⟩
  · split
    · split
      · exact ⟨rfl, rfl, rfl⟩
      · exact ⟨rfl, rfl, rfl⟩
    · split
      · exact ⟨rfl, rfl, rfl⟩
      · exact ⟨rfl, rfl, rfl⟩

/-- Helper: `process_remote_args` only rewrites `args`; the other three
fields of the state are untouched. -/
lemma process_remote_args_frame (p : PerfArgs) (r : String) (cg ts : Bool) :
    (p.process_remote_args r cg ts).2.initial_args = p.initial_args ∧
    (p.process_remote_args r cg ts).2.command = p.command ∧
    (p.process_remote_args r cg ts).2.sub_command = p.sub_command := by
  unfold PerfArgs.process_remote_args
  dsimp only
  split
  · exact ⟨rfl, rfl, rfl⟩
  · split <;> split <;> split <;>
      exact ⟨(get_output_filename_frame _ _).1,
        (get_output_filename_frame _ _).2.1,
        (get_output_filename_frame _ _).2.2⟩

/-- C9: `initial_args` is the argument list captured at construction and
is never changed by the mutating operations, whose effect is confined to
`args` (and, at construction, `sub_command`): the `man_to_builtin_help`
rewrite, `insert_process_option`, `insert_symfs_dir`,
`get_output_filename` and `process_remote_args` all preserve
`initial_args`, and the resolved `command` as well. -/
theorem C9_initial_args_immutable (args : List String) (v : Bool)
    (q : PerfArgs) (hinit : PerfArgs.init args v = .ok q)
    (p : PerfArgs) (pid : Nat) (dir r : String) (cg ts : Bool) :
    q.initial_args = args ∧
    ({ p with args := man_to_builtin_help p.args } : PerfArgs).initial_args
      = p.initial_args ∧
    (p.insert_process_option pid).initial_args = p.initial_args ∧
    (p.insert_process_option pid).command = p.command ∧
    (p.insert_symfs_dir dir).initial_args = p.initial_args ∧
    (p.insert_symfs_dir dir).command = p.command ∧
    (p.get_output_filename r).2.initial_args = p.initial_args ∧
    (p.get_output_filename r).2.command = p.command ∧
    (p.process_remote_args r cg ts).2.initial_args = p.initial_args ∧
    (p.process_remote_args r cg ts).2.command = p.command := by
  refine ⟨?_, rfl, ?_, ?_, ?_, ?_,
    (get_output_filename_frame p r).1, (get_output_filename_frame p r).2.1,
    (process_remote_args_frame p r cg ts).1,
    (process_remote_args_frame p r cg ts).2.1⟩
  · unfold PerfArgs.init at hinit
    dsimp only at hinit
    split at hinit
    · cases hinit
    · cases hinit
      rfl
  · unfold PerfArgs.insert_process_option
    split <;> rfl
  · unfold PerfArgs.insert_process_option
    split <;> rfl
  · unfold PerfArgs.insert_symfs_dir
    split
    · rfl
    · split <;> rfl
  · unfold PerfArgs.insert_symfs_dir
    split
    · rfl
    · split <;> rfl

/-- C9 witness: the frame properties at a concrete `top` invocation. -/
theorem C9_initial_args_immutable_witness :
    (⟨["top"], ["top"], topCommand, none⟩ : PerfArgs).initial_args = ["top"] :=
  (C9_initial_args_immutable ["top"] false
    ⟨["top"], ["top"], topCommand, none⟩ rfl
    ⟨["top"], ["top"], topCommand, none⟩ 1 "syms" "out.data" true true).1

/-- Helper: the value-option scan returns `-1` on a list containing no
queried alias except possibly as its final token. -/
lemma parse_value_option_go_none (options : List String) :
    ∀ (i : Nat) (args : List String),
      (∀ a ∈ args.dropLast, a ∉ options) →
      parse_value_option_go options i args = -1 := by
  intro i args
  induction args generalizing i with
  | nil => intro _; rfl
  | cons a rest ih =>
    intro h
    unfold parse_value_option_go
    rcases Decidable.em (rest = []) with hrest | hrest
    · subst hrest
      simp [parse_value_option_go]
    · have ha : a ∉ options := by
        apply h
        rw [List.dropLast_cons_of_ne_nil hrest]
        exact List.mem_cons_self a _
      rw [if_neg]
      · apply ih
        intro b hb
        apply h
        rw [List.dropLast_cons_of_ne_nil hrest]
        exact List.mem_cons_of_mem a hb
      · simp only [Bool.and_eq_true, not_and]
        intro hmem
        exact absurd (by simpa using hmem) ha

/-- C10: when an alias of the queried option set occurs only as the
final token of the argument list (so it has no following value),
`parse_value_option` answers `-1` instead of the out-of-range position
of a value; consequently `get_input_filename` on an invocation whose
arguments end in a bare `-i` (with no earlier `-i`) falls back to the
command's default input filename. -/
theorem C10_trailing_option_returns_minus_one :
    (∀ (p : PerfArgs) (options pre : List String) (o : String),
      p.args = pre ++ [o] → o ∈ options → (∀ a ∈ pre, a ∉ options) →
      p.parse_value_option options = -1) ∧
    (∀ (p : PerfArgs) (pre : List String),
      p.args = pre ++ ["-i"] → "-i" ∉ pre →
      p.get_input_filename = p.get_default_input_filename) := by
  have hgo : ∀ (p : PerfArgs) (options pre : List String) (o : String),
      p.args = pre ++ [o] → (∀ a ∈ pre, a ∉ options) →
      p.parse_value_option options = -1 := by
    intro p options pre o hargs hpre
    unfold PerfArgs.parse_value_option
    rw [hargs]
    apply parse_value_option_go_none
    intro a ha
    apply hpre
    rwa [List.dropLast_concat] at ha
  constructor
  · intro p options pre o hargs _ hpre
    exact hgo p options pre o hargs hpre
  · intro p pre hargs hpre
    have hpvo : p.parse_value_option ["-i"] = -1 := by
      apply hgo p ["-i"] pre "-i" hargs
      intro a ha hmem
      rw [List.mem_singleton] at hmem
      subst hmem
      exact hpre ha
    unfold PerfArgs.get_input_filename
    rw [hpvo]
    rfl

/-- C10 witness: a `report` invocation whose last token is a bare `-i`
reads the default input filename `perf.data`. -/
theorem C10_trailing_option_returns_minus_one_witness :
    PerfArgs.parse_value_option
      ⟨["report", "-i"], ["report", "-i"],
       .mk "report" [] [] true false true "" "perf.data", none⟩ ["-i"] = -1 ∧
    PerfArgs.get_input_filename
      ⟨["report", "-i"], ["report", "-i"],
       .mk "report" [] [] true false true "" "perf.data", none⟩ = "perf.data" := by
  constructor
  · exact C10_trailing_option_returns_minus_one.1 _ ["-i"] ["report"] "-i"
      rfl (by decide) (by decide)
  · rw [C10_trailing_option_returns_minus_one.2 _ ["report"] rfl (by decide)]
    rfl

/-- Helper: the value-option scan finds the first queried alias that has
a following value, answering the index of that value. -/
lemma parse_value_option_go_found (options : List String) :
    ∀ (i : Nat) (pre : List String) (o val : String) (post : List String),
      o ∈ options → (∀ a ∈ pre, a ∉ options) →
      parse_value_option_go options i (pre ++ o :: val :: post) =
        ((i + pre.length + 1 : Nat) : Int) := by
  intro i pre
  induction pre generalizing i with
  | nil =>
    intro o val post ho _
    rw [List.nil_append]
    simp only [parse_value_option_go]
    rw [if_pos]
    · simp
    · simp [List.contains, ho]
  | cons a rest ih =>
    intro o val post ho hpre
    have ha : a ∉ options := hpre a (List.mem_cons_self a rest)
    rw [List.cons_append]
    simp only [parse_value_option_go]
    rw [if_neg]
    · rw [ih (i + 1) o val post ho
        (fun b hb => hpre b (List.mem_cons_of_mem a hb))]
      simp only [List.length_cons]
      omega
    · simp [List.contains, ha]

/-- Helper: `parse_value_option` answers `-1` when no token of the
argument list is a queried alias. -/
lemma parse_value_option_absent (p : PerfArgs) (options : List String)
    (h : ∀ a ∈ p.args, a ∉ options) :
    p.parse_value_option options = -1 := by
  unfold PerfArgs.parse_value_option
  apply parse_value_option_go_none
  intro a ha
  exact h a (List.dropLast_subset _ ha)

/-- C7: for an invocation resolved to the `record` command,
`get_output_filename` answers the default `perf.data` when `-o` is
absent; with `-o <path>` present (first occurrence, with a value) it
answers `<path>` verbatim; a non-empty remote override replaces the
in-place `-o` value, or appends `-o <override>` when `-o` was absent;
and `process_remote_args` reaches `get_output_filename` after appending
`-m 4` (and conditionally `-g` / `-T`). -/
theorem C7_record_output_filename (p : PerfArgs)
    (hcmd : p.command = recordCommand) :
    ("-o" ∉ p.args → p.get_output_filename "" = ("perf.data", p)) ∧
    (∀ r, r ≠ "" → "-o" ∉ p.args →
      p.get_output_filename r =
        ("perf.data", { p with args := p.args ++ ["-o", r] })) ∧
    (∀ pre val post, p.args = pre ++ "-o" :: val :: post → "-o" ∉ pre →
      p.get_output_filename "" = (val, p) ∧
      (∀ r, r ≠ "" → p.get_output_filename r =
        (val, { p with args := pre ++ "-o" :: r :: post }))) ∧
    (∀ r cg ts, p.process_remote_args r cg ts =
      PerfArgs.get_output_filename
        { p with args := ((p.args ++ ["-m", "4"]) ++
            (if cg then ["-g"] else [])) ++ (if ts then ["-T"] else []) } r) := by
  have hdef : p.get_default_output_filename = "perf.data" := by
    unfold PerfArgs.get_default_output_filename
    rw [hcmd]
    rfl
  have habsent : "-o" ∉ p.args → p.parse_value_option ["-o"] = -1 := by
    intro h
    apply parse_value_option_absent
    intro a ha hmem
    rw [List.mem_singleton] at hmem
    subst hmem
    exact h ha
  refine ⟨?_, ?_, ?_, ?_⟩
  · intro h
    unfold PerfArgs.get_output_filename
    dsimp only
    rw [hdef, if_neg (by decide : ¬("perf.data" = "")), habsent h,
      if_neg (by decide : ¬((-1 : Int) ≥ 0)),
      if_neg (by decide : ¬(("" : String) ≠ ""))]
  · intro r hr h
    unfold PerfArgs.get_output_filename
    dsimp only
    rw [hdef, if_neg (by decide : ¬("perf.data" = "")), habsent h,
      if_neg (by decide : ¬((-1 : Int) ≥ 0)), if_pos hr]
  · intro pre val post hargs hpre
    have hfound : p.parse_value_option ["-o"] =
        ((pre.length + 1 : Nat) : Int) := by
      unfold PerfArgs.parse_value_option
      rw [hargs]
      rw [parse_value_option_go_found ["-o"] 0 pre "-o" val post (by simp)
        (fun a ha hmem => by
          rw [List.mem_singleton] at hmem
          subst hmem
          exact hpre ha)]
      norm_num
    have hgetD : (pre ++ "-o" :: val :: post).getD (pre.length + 1) ""
        = val := by
      rw [List.getD_eq_getElem _ _ (by simp [List.length_append])]
      rw [List.getElem_append_right (Nat.le_succ _)]
      simp
    have hset : ∀ x : String,
        (pre ++ "-o" :: val :: post).set (pre.length + 1) x =
          pre ++ "-o" :: x :: post := by
      intro x
      rw [List.set_append_right _ _ (Nat.le_succ _)]
      simp
    constructor
    · unfold PerfArgs.get_output_filename
      dsimp only
      rw [hdef, if_neg (by decide : ¬("perf.data" = "")), hfound,
        if_pos (by positivity : ((pre.length + 1 : Nat) : Int) ≥ 0)]
      rw [Int.toNat_natCast, hargs, hgetD,
        if_neg (by decide : ¬(("" : String) ≠ ""))]
    · intro r hr
      unfold PerfArgs.get_output_filename
      dsimp only
      rw [hdef, if_neg (by decide : ¬("perf.data" = "")), hfound,
        if_pos (by positivity : ((pre.length + 1 : Nat) : Int) ≥ 0)]
      rw [Int.toNat_natCast, hargs, hgetD, hset, if_pos hr]
  · intro r cg ts
    unfold PerfArgs.process_remote_args
    dsimp only
    rw [hcmd]
    cases cg <;> cases ts <;>
      simp [recordCommand, PerfArgsCommand.name]

/-- C7 witness: `record` without `-o` answers `perf.data`; with
`-o custom.data` it answers `custom.data` verbatim; a remote override
`remote.data` rewrites the in-place value. -/
theorem C7_record_output_filename_witness :
    PerfArgs.get_output_filename
      ⟨["record"], ["record"], recordCommand, none⟩ "" =
      ("perf.data", ⟨["record"], ["record"], recordCommand, none⟩) ∧
    PerfArgs.get_output_filename
      ⟨["record", "-o", "custom.data"], ["record", "-o", "custom.data"],
       recordCommand, none⟩ "" =
      ("custom.data",
       ⟨["record", "-o", "custom.data"], ["record", "-o", "custom.data"],
        recordCommand, none⟩) ∧
    PerfArgs.get_output_filename
      ⟨["record", "-o", "custom.data"], ["record", "-o", "custom.data"],
       recordCommand, none⟩ "remote.data" =
      ("custom.data",
       ⟨["record", "-o", "custom.data"], ["record", "-o", "remote.data"],
        recordCommand, none⟩) := by
  refine ⟨(C7_record_output_filename _ rfl).1 (by decide), ?_, ?_⟩
  · exact ((C7_record_output_filename _ rfl).2.2.1 ["record"] "custom.data"
      [] rfl (by decide)).1
  · exact ((C7_record_output_filename _ rfl).2.2.1 ["record"] "custom.data"
      [] rfl (by decide)).2 "remote.data" (by decide)

/-- Helper: a command found in a table has the queried name. -/
lemma lookupCommand_name {cmds : List PerfArgsCommand} {key : String}
    {c : PerfArgsCommand} (h : lookupCommand cmds key = some c) :
    c.name = key := by
  unfold lookupCommand at h
  have := List.find?_some h
  simpa using this

/-- C4 counterexample: `-h` is a non-empty token absent from the
command table, yet construction does not raise `UnsupportedCommand`:
the man-to-builtin-help rewrite first turns the lone `-h` into `help`,
which then resolves. -/
theorem C4_counterexample_dash_h_resolves_help :
    (PerfArgs.init ["-h"] false).toOption.map (fun p => p.command.name) =
      some "help" ∧
    lookupCommand SUPPORTED_COMMANDS "-h" = none ∧
    "-h" ≠ "" :=
  ⟨by rfl, by rfl, by decide⟩

/-- C4 amended: construction resolves the FIRST REWRITTEN token (the
head of the argument list after the man-to-builtin-help rewrite,
defaulting to `help` when the list is empty): when that token is in the
command table, construction succeeds and `command.name` equals it; when
it is absent from the table, construction raises the structured error
whose message carries the token; an empty argument list resolves the
`help` command.  (The unrewritten first token may differ: `-h` and
`--help` are rewritten to `help` before lookup, so they do not raise.) -/
theorem C4_amended_first_resolved_token (args : List String) (v : Bool) :
    (∀ c, lookupCommand SUPPORTED_COMMANDS
        ((man_to_builtin_help args).headD "help") = some c →
      ∃ p, PerfArgs.init args v = .ok p ∧ p.command = c ∧
        p.command.name = (man_to_builtin_help args).headD "help") ∧
    (lookupCommand SUPPORTED_COMMANDS
        ((man_to_builtin_help args).headD "help") = none →
      PerfArgs.init args v = .error
        ("Unsupported perf command " ++
          (man_to_builtin_help args).headD "help")) ∧
    (args = [] → ∃ p, PerfArgs.init args v = .ok p ∧
      p.command.name = "help") := by
  refine ⟨?_, ?_, ?_⟩
  · intro c h
    unfold PerfArgs.init
    dsimp only
    rw [h]
    exact ⟨_, rfl, rfl, lookupCommand_name h⟩
  · intro h
    unfold PerfArgs.init
    dsimp only
    rw [h]
  · intro h
    subst h
    exact ⟨_, rfl, rfl⟩

/-- C4 amended, witness: `record` is in the table and resolves to
itself; `frobnicate` is not and raises with the token in the message. -/
theorem C4_amended_first_resolved_token_witness :
    (∃ p, PerfArgs.init ["record"] false = .ok p ∧
      p.command = recordCommand ∧ p.command.name = "record") ∧
    PerfArgs.init ["frobnicate"] false =
      .error "Unsupported perf command frobnicate" := by
  constructor
  · have h := (C4_amended_first_resolved_token ["record"] false).1
      recordCommand rfl
    simpa using h
  · have h := (C4_amended_first_resolved_token ["frobnicate"] false).2.1 rfl
    simpa using h

/-- Some `help` token is immediately followed by another token (the
shape the rewrite loop turns into `<token> -h`). -/
def hasHelpFollowed : List String → Bool
  | [] => false
  | [_] => false
  | a :: b :: rest => a == "help" || hasHelpFollowed (b :: rest)

/-- The final token is `--help` (the shape the rewrite loop turns into
`-h`). -/
def lastIsDashDashHelp : List String → Bool
  | [] => false
  | [a] => a == "--help"
  | _ :: b :: rest => lastIsDashDashHelp (b :: rest)

/-- Helper: the last-is-`--help` test ignores a leading token. -/
lemma lastIsDashDashHelp_cons (c : String) (l : List String) (h : l ≠ []) :
    lastIsDashDashHelp (c :: l) = lastIsDashDashHelp l := by
  cases l with
  | nil => exact absurd rfl h
  | cons b r => rfl

/-- Helper: the rewrite loop maps non-empty lists to non-empty lists. -/
lemma man_to_builtin_help_loop_ne_nil (a : String) (rest : List String) :
    man_to_builtin_help_loop (a :: rest) ≠ [] := by
  cases rest <;> simp [man_to_builtin_help_loop] <;> split <;> simp

/-- Helper: the rewrite loop never outputs a trailing `--help`. -/
lemma lastIsDashDashHelp_loop (x : List String) :
    lastIsDashDashHelp (man_to_builtin_help_loop x) = false := by
  induction x using man_to_builtin_help_loop.induct with
  | case1 => rfl
  | case2 => rfl
  | case3 arg h =>
    simp [man_to_builtin_help_loop, h, lastIsDashDashHelp]
  | case4 next rest ih =>
    have heq : man_to_builtin_help_loop ("help" :: next :: rest) =
        next :: "-h" :: man_to_builtin_help_loop rest := by
      simp [man_to_builtin_help_loop]
    rw [heq, lastIsDashDashHelp_cons next _ (by simp)]
    cases hL : man_to_builtin_help_loop rest with
    | nil => rfl
    | cons c l =>
      rw [lastIsDashDashHelp_cons "-h" (c :: l) (by simp), ← hL]
      exact ih
  | case5 arg next rest h ih =>
    have heq : man_to_builtin_help_loop (arg :: next :: rest) =
        arg :: man_to_builtin_help_loop (next :: rest) := by
      simp [man_to_builtin_help_loop, h]
    rw [heq, lastIsDashDashHelp_cons arg _
      (man_to_builtin_help_loop_ne_nil next rest)]
    exact ih

/-- Helper: the rewrite loop fixes every list with no `help` token
followed by another token and no trailing `--help`. -/
lemma man_to_builtin_help_loop_fixpoint :
    ∀ y : List String, hasHelpFollowed y = false →
      lastIsDashDashHelp y = false → man_to_builtin_help_loop y = y := by
  intro y
  induction y using man_to_builtin_help_loop.induct with
  | case1 => intro _ _; rfl
  | case2 =>
    intro _ h2
    simp [lastIsDashDashHelp] at h2
  | case3 arg h =>
    intro _ _
    simp [man_to_builtin_help_loop, h]
  | case4 next rest ih =>
    intro h1 _
    simp [hasHelpFollowed] at h1
  | case5 arg next rest h ih =>
    intro h1 h2
    have hparts := by simpa [hasHelpFollowed] using h1
    have h2' : lastIsDashDashHelp (next :: rest) = false := by
      rwa [lastIsDashDashHelp_cons arg _ (by simp)] at h2
    simp [man_to_builtin_help_loop, h, ih hparts.2 h2']

/-- C5 counterexample: the man-to-builtin-help rewrite is not
idempotent: `['help', 'help']` rewrites to `['help', '-h']`, which a
second application collapses to `['help']`. -/
theorem C5_counterexample_help_help_not_idempotent :
    man_to_builtin_help ["help", "help"] = ["help", "-h"] ∧
    man_to_builtin_help (man_to_builtin_help ["help", "help"]) = ["help"] ∧
    man_to_builtin_help (man_to_builtin_help ["help", "help"]) ≠
      man_to_builtin_help ["help", "help"] :=
  ⟨by rfl, by rfl, by decide⟩

/-- C5 amended: constructing `PerfArgs` from `['help', 'record']` yields
the same working argument list `['record', '-h']` as constructing it
from `['record', '-h']`; and the man-to-builtin-help rewrite is
idempotent on every argument list whose rewritten form contains no
`help` token immediately followed by another token (the only shape — as
for input `['help', 'help']` — on which a second application still
rewrites). -/
theorem C5_amended_help_rewrite (x : List String) :
    (hasHelpFollowed (man_to_builtin_help x) = false →
      man_to_builtin_help (man_to_builtin_help x) = man_to_builtin_help x) ∧
    ((PerfArgs.init ["help", "record"] false).toOption.map PerfArgs.args =
      some ["record", "-h"] ∧
     (PerfArgs.init ["record", "-h"] false).toOption.map PerfArgs.args =
      some ["record", "-h"]) := by
  refine ⟨?_, by rfl, by rfl⟩
  intro h
  by_cases hc : (["-h", "--help"].contains
      ((man_to_builtin_help_loop x).headD "")) = true
  · have hfx : man_to_builtin_help x = ["help"] := by
      unfold man_to_builtin_help
      rw [if_pos hc]
    rw [hfx]
    rfl
  · have hfx : man_to_builtin_help x = man_to_builtin_help_loop x := by
      unfold man_to_builtin_help
      rw [if_neg hc]
    rw [hfx] at h ⊢
    have hloop := man_to_builtin_help_loop_fixpoint
      (man_to_builtin_help_loop x) h (lastIsDashDashHelp_loop x)
    unfold man_to_builtin_help
    rw [hloop, if_neg hc]

/-- C5 amended, witness: one rewrite of `['record', '-h']` satisfies
the no-`help`-pair condition and a second application fixes it. -/
theorem C5_amended_help_rewrite_witness :
    man_to_builtin_help (man_to_builtin_help ["record", "-h"]) =
      man_to_builtin_help ["record", "-h"] :=
  (C5_amended_help_rewrite ["record", "-h"]).1 (by decide)

/-- Timestamps 1.0, 1.01, 1.03 with all periods 1
(the fixed-frequency example of the specification). -/
def exampleFixedFreqSamples : List PerfRecordSample :=
  [⟨0, "", 0, 0, 0, 1, "", 1, "", []⟩,
   ⟨0, "", 0, 0, 0, 1, "", 101 / 100, "", []⟩,
   ⟨0, "", 0, 0, 0, 1, "", 103 / 100, "", []⟩]

/-- C2 amended: for at least two samples, the period-correction pass
rewrites the periods (`res[i].period = samples[i+1].time -
samples[i].time` for `i < n-1`, and the last sample repeats the
previous delta) if and only if the SUM of the reported periods equals
the number of samples; when the sum differs, the samples are returned
exactly as collected. -/
theorem C2_amended_sum_condition (samples : List PerfRecordSample)
    (h2 : 2 ≤ samples.length) :
    ((samples.map (fun s => s.period)).sum = (samples.length : ℚ) →
      ∃ res, correctPeriods samples = .ok res ∧
        res.length = samples.length ∧
        (∀ i, i + 1 < samples.length →
          (res.getD i default).period =
            (samples.getD (i + 1) default).time -
              (samples.getD i default).time) ∧
        (res.getD (samples.length - 1) default).period =
          (samples.getD (samples.length - 1) default).time -
            (samples.getD (samples.length - 2) default).time) ∧
    ((samples.map (fun s => s.period)).sum ≠ (samples.length : ℚ) →
      correctPeriods samples = .ok samples) := by
  have hne : samples ≠ [] := by
    intro h
    rw [h] at h2
    simp at h2
  constructor
  · intro hsum
    unfold correctPeriods
    rw [if_pos ⟨hne, hsum⟩]
    dsimp only
    set D := (samples.zip samples.tail).map (fun p => p.2.time - p.1.time)
      with hD
    have hlD : D.length = samples.length - 1 := by
      rw [hD]
      simp [List.length_tail]
    have hDi : ∀ i, i + 1 < samples.length →
        D[i]? = some ((samples.getD (i + 1) default).time -
          (samples.getD i default).time) := by
      intro i hi
      have h1 : i < samples.length := by omega
      have h3 : i < samples.tail.length := by
        rw [List.length_tail]
        omega
      have hz : (samples.zip samples.tail)[i]? =
          some (samples.get ⟨i, h1⟩, samples.tail.get ⟨i, h3⟩) :=
        List.getElem?_zip_eq_some.mpr
          ⟨List.getElem?_eq_getElem h1, List.getElem?_eq_getElem h3⟩
      rw [hD, List.getElem?_map, hz, Option.map_some']
      have hgd1 : samples.getD (i + 1) default = samples.get ⟨i + 1, hi⟩ :=
        List.getD_eq_getElem _ _ hi
      have hgd2 : samples.getD i default = samples.get ⟨i, h1⟩ :=
        List.getD_eq_getElem _ _ h1
      have ht : samples.tail.get ⟨i, h3⟩ = samples.get ⟨i + 1, hi⟩ :=
        List.getElem_tail samples i h3
      rw [hgd1, hgd2, ht]
    have hDne : D ≠ [] := by
      intro h
      rw [h] at hlD
      simp only [List.length_nil] at hlD
      omega
    obtain ⟨last, hlast⟩ : ∃ l, D.getLast? = some l := by
      cases h : D.getLast? with
      | none => exact absurd (List.getLast?_eq_none_iff.mp h) hDne
      | some l => exact ⟨l, rfl⟩
    rw [hlast]
    refine ⟨_, rfl, ?_, ?_, ?_⟩
    · rw [List.length_zipWith, List.length_append, hlD]
      simp only [List.length_cons, List.length_nil]
      omega
    · intro i hi
      have h1 : i < samples.length := by omega
      have hDapp : (D ++ [last])[i]? = D[i]? :=
        List.getElem?_append_left (by rw [hlD]; omega)
      have hres : (List.zipWith
          (fun sample delta => { sample with period := delta })
          samples (D ++ [last]))[i]? =
          some { samples.get ⟨i, h1⟩ with period :=
            (samples.getD (i + 1) default).time -
              (samples.getD i default).time } :=
        List.getElem?_zipWith_eq_some.mpr
          ⟨samples.get ⟨i, h1⟩, _,
           List.getElem?_eq_getElem h1, by rw [hDapp, hDi i hi], rfl⟩
      rw [List.getD_eq_getElem?_getD, hres, Option.getD_some]
    · have hn1 : samples.length - 1 < samples.length := by omega
      have hlastval : last =
          (samples.getD (samples.length - 1) default).time -
            (samples.getD (samples.length - 2) default).time := by
        have h := hlast
        rw [List.getLast?_eq_getElem?, hlD] at h
        have hb : samples.length - 1 - 1 + 1 < samples.length := by omega
        rw [hDi (samples.length - 1 - 1) hb] at h
        have he : samples.length - 1 - 1 + 1 = samples.length - 1 := by
          omega
        have he2 : samples.length - 1 - 1 = samples.length - 2 := by omega
        rw [he, he2] at h
        exact (Option.some_injective _ h).symm
      have hDapp : (D ++ [last])[samples.length - 1]? = some last := by
        rw [List.getElem?_append_right (by rw [hlD]), hlD]
        simp
      have hres : (List.zipWith
          (fun sample delta => { sample with period := delta })
          samples (D ++ [last]))[samples.length - 1]? =
          some { samples.get ⟨samples.length - 1, hn1⟩ with period := last } :=
        List.getElem?_zipWith_eq_some.mpr
          ⟨samples.get ⟨samples.length - 1, hn1⟩, last,
           List.getElem?_eq_getElem hn1, hDapp, rfl⟩
      rw [List.getD_eq_getElem?_getD, hres, Option.getD_some, hlastval]
  · intro hsum
    unfold correctPeriods
    rw [if_neg]
    intro hand
    exact hsum hand.2

/-- C2 amended, witness: the specification's fixed-frequency example
(periods all 1, timestamps 1.0/1.01/1.03) satisfies the sum condition
and is rewritten; two samples with periods 2 and 5 (sum 7 ≠ 2) are
returned as reported. -/
theorem C2_amended_sum_condition_witness :
    (∃ res, correctPeriods exampleFixedFreqSamples = .ok res ∧
      res.length = exampleFixedFreqSamples.length ∧
      (∀ i, i + 1 < exampleFixedFreqSamples.length →
        (res.getD i default).period =
          (exampleFixedFreqSamples.getD (i + 1) default).time -
            (exampleFixedFreqSamples.getD i default).time) ∧
      (res.getD (exampleFixedFreqSamples.length - 1) default).period =
        (exampleFixedFreqSamples.getD
          (exampleFixedFreqSamples.length - 1) default).time -
          (exampleFixedFreqSamples.getD
            (exampleFixedFreqSamples.length - 2) default).time) ∧
    correctPeriods
      [⟨0, "", 0, 0, 0, 2, "", 1, "", []⟩, ⟨0, "", 0, 0, 0, 5, "", 2, "", []⟩] =
      .ok [⟨0, "", 0, 0, 0, 2, "", 1, "", []⟩,
           ⟨0, "", 0, 0, 0, 5, "", 2, "", []⟩] :=
  ⟨(C2_amended_sum_condition exampleFixedFreqSamples (by decide)).1
      (by decide),
   (C2_amended_sum_condition _ (by decide)).2 (by decide)⟩

end FplPerf
